import Mathlib

/-!
Verification of the FinSage multi-agent financial analysis pipeline.

The Python source is embedded shallowly: machine floats become exact
rationals, dictionaries become records, and the per-agent procedures
become pure Lean functions.  Where the source calls numpy's square root
(standard deviations), the irrational value is passed as an explicit
parameter constrained by the hypotheses `0 <= std` and
`std * std = varQ data`, which characterise the non-negative root.
-/

namespace FinSage

/-- A transaction as consumed by the agents: the `type` field ("credit" or
"debit") classifies the transaction, `amount` is the signed amount, `day`
stands for the calendar day of the `date` field, `category` is free text. -/
structure Txn where
  type : String
  amount : ℚ
  day : Int
  category : String
deriving DecidableEq

/-- The metrics dictionary produced by
`FinancialAnalystAgent._calculate_metrics`. -/
structure Metrics where
  total_income : ℚ
  total_expenses : ℚ
  net_cash_flow : ℚ
  savings_rate : ℚ
  income_volatility : ℚ
  avg_transaction : ℚ
  transaction_count : ℕ
  income_count : ℕ
  expense_count : ℕ
deriving DecidableEq

/-- Arithmetic mean of a list of rationals (numpy `mean`; `[] ↦ 0`
because rational division by zero is zero). -/
def meanQ (l : List ℚ) : ℚ := l.sum / l.length

/-- Population variance of a list of rationals; numpy `std` is its
non-negative square root. -/
def varQ (l : List ℚ) : ℚ := meanQ (l.map (fun x => (x - meanQ l) ^ 2))

/-- `FinancialAnalystAgent._calculate_metrics`.  `incomeStd` stands for
`np.std(income_amounts)` (only used when there are at least two inflows
and their mean is positive, exactly as in the source). -/
def calculate_metrics (incomeStd : ℚ) (transactions : List Txn) : Metrics :=
  let income_txns := transactions.filter (fun t => t.type == "credit")
  let expense_txns := transactions.filter (fun t => t.type == "debit")
  let total_income := (income_txns.map (fun t => t.amount)).sum
  let total_expenses := (expense_txns.map (fun t => |t.amount|)).sum
  let net_cash_flow := total_income - total_expenses
  let savings_rate := if 0 < total_income then net_cash_flow / total_income * 100 else 0
  let income_amounts := income_txns.map (fun t => t.amount)
  let income_volatility :=
    if 1 < income_amounts.length then
      if 0 < meanQ income_amounts then incomeStd / meanQ income_amounts else 0
    else 0
  let avg_transaction :=
    if transactions.length ≠ 0 then (total_income + total_expenses) / transactions.length else 0
  { total_income := total_income
    total_expenses := total_expenses
    net_cash_flow := net_cash_flow
    savings_rate := savings_rate
    income_volatility := income_volatility
    avg_transaction := avg_transaction
    transaction_count := transactions.length
    income_count := income_txns.length
    expense_count := expense_txns.length }

/-- One entry of the risk dictionary built by
`RiskAssessorAgent._calculate_risk_scores` (description strings omitted:
they are display text derived from the same inputs). -/
structure RiskScore where
  score : ℚ
  level : String
deriving DecidableEq

/-- The four sub-risks of `RiskAssessorAgent._calculate_risk_scores`. -/
structure RiskScores where
  income_stability_risk : RiskScore
  cash_flow_risk : RiskScore
  savings_risk : RiskScore
  emergency_fund_risk : RiskScore
deriving DecidableEq

/-- `RiskAssessorAgent._calculate_risk_scores`: four independent
threshold ladders.  `emergency_months` is the literal `0` of the source
("assume 0 for new users"). -/
def calculate_risk_scores (metrics : Metrics) : RiskScores :=
  let income_volatility := metrics.income_volatility
  let income_risk : RiskScore :=
    if income_volatility < 0.2 then ⟨0.1, "Low"⟩
    else if income_volatility < 0.4 then ⟨0.3, "Medium"⟩
    else if income_volatility < 0.6 then ⟨0.6, "High"⟩
    else ⟨0.9, "Critical"⟩
  let net_cash_flow := metrics.net_cash_flow
  let total_income := metrics.total_income
  let cash_flow_risk : RiskScore :=
    if 0 < net_cash_flow ∧ total_income * 0.2 < net_cash_flow then ⟨0.1, "Low"⟩
    else if 0 < net_cash_flow then ⟨0.3, "Medium"⟩
    else if -total_income * 0.1 < net_cash_flow then ⟨0.6, "High"⟩
    else ⟨0.9, "Critical"⟩
  let savings_rate := metrics.savings_rate
  let savings_risk : RiskScore :=
    if 20 ≤ savings_rate then ⟨0.1, "Low"⟩
    else if 10 ≤ savings_rate then ⟨0.3, "Medium"⟩
    else if 0 ≤ savings_rate then ⟨0.6, "High"⟩
    else ⟨0.9, "Critical"⟩
  let emergency_months : ℚ := 0
  let emergency_fund_risk : RiskScore :=
    if 6 ≤ emergency_months then ⟨0.1, "Low"⟩
    else if 3 ≤ emergency_months then ⟨0.3, "Medium"⟩
    else if 1 ≤ emergency_months then ⟨0.6, "High"⟩
    else ⟨0.9, "Critical"⟩
  ⟨income_risk, cash_flow_risk, savings_risk, emergency_fund_risk⟩

/-- `RiskAssessorAgent._calculate_overall_risk`: weighted sum with
weights 0.3 / 0.3 / 0.2 / 0.2 (all four risks are always present). -/
def calculate_overall_risk (risks : RiskScores) : ℚ :=
  risks.income_stability_risk.score * 0.3
    + risks.cash_flow_risk.score * 0.3
    + risks.savings_risk.score * 0.2
    + risks.emergency_fund_risk.score * 0.2

/-- Python `round(x, 1)`.  Mathlib `round` rounds halves up while Python
rounds halves to even; no claim below exercises an exact tie. -/
def round1 (x : ℚ) : ℚ := (round (x * 10) : ℤ) / 10

/-- Python `round(x, 2)` (same tie caveat as `round1`). -/
def round2 (x : ℚ) : ℚ := (round (x * 100) : ℤ) / 100

/-- Python f-string formatting `:.2f` of a rational (same tie caveat as
`round1`). -/
def fmt2 (x : ℚ) : String :=
  let c : ℤ := round (x * 100)
  let sign := if c < 0 then "-" else ""
  let n := c.natAbs
  sign ++ toString (n / 100) ++ "." ++ (if n % 100 < 10 then "0" else "") ++ toString (n % 100)

/-- `FinSageOrchestrator._calculate_health_score`.  A `none` argument
models the corresponding dictionary being absent, in which case the
source's `dict.get` defaults apply (`savings_rate` 0, `net_cash_flow` 0,
`total_income` 1, `overall_risk_score` 0.5, `transaction_count` 0). -/
def calculate_health_score (metrics : Option Metrics) (overall_risk_score : Option ℚ) : ℚ :=
  let savings_rate := (metrics.map Metrics.savings_rate).getD 0
  let savings_score := min (savings_rate * 1.5) 30
  let net_cash_flow := (metrics.map Metrics.net_cash_flow).getD 0
  let total_income := (metrics.map Metrics.total_income).getD 1
  let cash_flow_frac := if 0 < total_income then net_cash_flow / total_income else 0
  let cash_flow_score := min (max (cash_flow_frac * 100) 0) 25
  let overall_risk := overall_risk_score.getD 0.5
  let risk_score := (1 - overall_risk) * 25
  let txn_count := (metrics.map Metrics.transaction_count).getD 0
  let tracking_score := min ((txn_count : ℚ) / 30 * 20) 20
  round1 (savings_score + cash_flow_score + risk_score + tracking_score)

/-- An allocation over `RLAgent.DEFAULT_CATEGORIES`, the eight
categories of the policy-function path, as a record of proportions or
amounts. -/
structure Alloc where
  food_groceries : ℚ
  transport : ℚ
  utilities : ℚ
  healthcare : ℚ
  entertainment : ℚ
  education : ℚ
  savings : ℚ
  miscellaneous : ℚ
deriving DecidableEq

/-- Sum of the eight categories (`allocation_probs.sum()` /
`sum(allocation.values())`). -/
def Alloc.total (a : Alloc) : ℚ :=
  a.food_groceries + a.transport + a.utilities + a.healthcare
    + a.entertainment + a.education + a.savings + a.miscellaneous

/-- All eight entries are non-negative. -/
def Alloc.Nonneg (a : Alloc) : Prop :=
  0 ≤ a.food_groceries ∧ 0 ≤ a.transport ∧ 0 ≤ a.utilities ∧ 0 ≤ a.healthcare
    ∧ 0 ≤ a.entertainment ∧ 0 ≤ a.education ∧ 0 ≤ a.savings ∧ 0 ≤ a.miscellaneous

instance (a : Alloc) : Decidable a.Nonneg := by unfold Alloc.Nonneg; infer_instance

/-- Elementwise division (`allocation_probs / allocation_probs.sum()`). -/
def Alloc.divAll (a : Alloc) (s : ℚ) : Alloc :=
  ⟨a.food_groceries / s, a.transport / s, a.utilities / s, a.healthcare / s,
    a.entertainment / s, a.education / s, a.savings / s, a.miscellaneous / s⟩

/-- Elementwise multiplication (`prob * total_budget`). -/
def Alloc.mulAll (a : Alloc) (c : ℚ) : Alloc :=
  ⟨a.food_groceries * c, a.transport * c, a.utilities * c, a.healthcare * c,
    a.entertainment * c, a.education * c, a.savings * c, a.miscellaneous * c⟩

/-- `RLAgent._adjust_for_risk`. -/
def _adjust_for_risk (probs : Alloc) (risk_tolerance : String) : Alloc :=
  if risk_tolerance = "low" then
    { probs with savings := probs.savings * 1.3, entertainment := probs.entertainment * 0.7 }
  else if risk_tolerance = "high" then
    { probs with savings := probs.savings * 0.8, entertainment := probs.entertainment * 1.2 }
  else probs

/-- The inner donor loop of `RLAgent._enforce_essential_minimums`: pull
`deficit` from `entertainment` then `miscellaneous`, each reduction
capped at half the donor's current value and at `deficit / 2`
(`deficit / len(non_essential)`), stopping once the deficit is filled. -/
def drain_donors (a : Alloc) (deficit : ℚ) : Alloc :=
  let red1 := min (a.entertainment * 0.5) (deficit / 2)
  let a1 := { a with entertainment := a.entertainment - red1 }
  let d1 := deficit - red1
  if d1 ≤ 0 then a1
  else
    let red2 := min (a1.miscellaneous * 0.5) (d1 / 2)
    { a1 with miscellaneous := a1.miscellaneous - red2 }

/-- Iteration of the `_enforce_essential_minimums` loop for
`food_groceries` (floor 20%): if below the floor, raise it and drain the
deficit from the donors. -/
def enforce_food_step (x : Alloc) : Alloc :=
  if x.food_groceries < 0.20 then
    drain_donors { x with food_groceries := 0.20 } (0.20 - x.food_groceries)
  else x

/-- Iteration of the `_enforce_essential_minimums` loop for `utilities`
(floor 10%). -/
def enforce_utilities_step (x : Alloc) : Alloc :=
  if x.utilities < 0.10 then
    drain_donors { x with utilities := 0.10 } (0.10 - x.utilities)
  else x

/-- Iteration of the `_enforce_essential_minimums` loop for `healthcare`
(floor 5%). -/
def enforce_healthcare_step (x : Alloc) : Alloc :=
  if x.healthcare < 0.05 then
    drain_donors { x with healthcare := 0.05 } (0.05 - x.healthcare)
  else x

/-- Iteration of the `_enforce_essential_minimums` loop for `savings`
(floor 10%). -/
def enforce_savings_step (x : Alloc) : Alloc :=
  if x.savings < 0.10 then
    drain_donors { x with savings := 0.10 } (0.10 - x.savings)
  else x

/-- `RLAgent._enforce_essential_minimums`: the loop over the `essentials`
dictionary unrolled in its fixed iteration order (food 20%, utilities
10%, healthcare 5%, savings 10%). -/
def _enforce_essential_minimums (probs : Alloc) : Alloc :=
  enforce_savings_step (enforce_healthcare_step (enforce_utilities_step (enforce_food_step probs)))

/-- `RLAgent.recommend_budget`, as a function of the softmax output
`probs` of the policy network (the network itself is the external
black-box policy function; softmax guarantees non-negative entries). -/
def recommend_budget (probs : Alloc) (total_budget : ℚ) (risk_tolerance : String) : Alloc :=
  let adjusted := _adjust_for_risk probs risk_tolerance
  let enforced := _enforce_essential_minimums adjusted
  let normalized := enforced.divAll enforced.total
  normalized.mulAll total_budget

/-- The eight categories of the rule-based fallback
(`BudgetOptimizerAgent._rule_based_allocation`), a different taxonomy
with no savings category. -/
structure RuleAlloc where
  food_groceries : ℚ
  rent_utilities : ℚ
  transportation : ℚ
  healthcare : ℚ
  entertainment : ℚ
  personal_care : ℚ
  education : ℚ
  miscellaneous : ℚ
deriving DecidableEq

/-- Sum of the eight fallback categories. -/
def RuleAlloc.total (a : RuleAlloc) : ℚ :=
  a.food_groceries + a.rent_utilities + a.transportation + a.healthcare
    + a.entertainment + a.personal_care + a.education + a.miscellaneous

/-- `BudgetOptimizerAgent._rule_based_allocation`: the fixed
25/30/10/8/10/5/7/5 percent split. -/
def _rule_based_allocation (total_budget : ℚ) : RuleAlloc :=
  { food_groceries := total_budget * 0.25
    rent_utilities := total_budget * 0.30
    transportation := total_budget * 0.10
    healthcare := total_budget * 0.08
    entertainment := total_budget * 0.10
    personal_care := total_budget * 0.05
    education := total_budget * 0.07
    miscellaneous := total_budget * 0.05 }

/-- An alert dictionary of `TransactionMonitorAgent`; fields that a
given detector does not set keep their defaults. -/
structure Alert where
  type : String
  severity : String
  message : String
  transaction : Option Txn := none
  deviation : Option ℚ := none
  transactions : List Txn := []
  count : Option ℕ := none
deriving DecidableEq

/-- The outflow amounts: `abs(t.amount)` for the debit transactions, in
order (`TransactionMonitorAgent._detect_anomalies`). -/
def expenses_of (transactions : List Txn) : List ℚ :=
  (transactions.filter (fun t => t.type == "debit")).map (fun t => |t.amount|)

/-- The loop body of `TransactionMonitorAgent._detect_anomalies` for one
transaction: skip non-debits, emit one urgent alert above
`mean + 3 * std`, else one warning alert above `mean + 2.5 * std`, else
nothing. -/
def anomaly_alerts_for (mean_expense std_expense : ℚ) (txn : Txn) : List Alert :=
  if txn.type ≠ "debit" then []
  else
    let amount := |txn.amount|
    if mean_expense + 3 * std_expense < amount then
      [{ type := "anomaly", severity := "urgent", transaction := some txn,
         message := "Unusually high expense: ₹" ++ fmt2 amount
           ++ " (expected ~₹" ++ fmt2 mean_expense ++ ")",
         deviation := some ((amount - mean_expense) / mean_expense * 100) }]
    else if mean_expense + 2.5 * std_expense < amount then
      [{ type := "anomaly", severity := "warning", transaction := some txn,
         message := "Higher than usual expense: ₹" ++ fmt2 amount,
         deviation := some ((amount - mean_expense) / mean_expense * 100) }]
    else []

/-- `TransactionMonitorAgent._detect_anomalies`.  `std_expense` stands
for `np.std(expenses)`, the non-negative square root of
`varQ (expenses_of transactions)`. -/
def detect_anomalies (std_expense : ℚ) (transactions : List Txn) : List Alert :=
  let expenses := expenses_of transactions
  if expenses.length < 5 then []
  else transactions.flatMap (anomaly_alerts_for (meanQ expenses) std_expense)

/-- The grouping key of `TransactionMonitorAgent._check_duplicates`:
amount rounded to 2 decimals, calendar day and category. -/
def dup_key (t : Txn) : ℚ × Int × String := (round2 t.amount, t.day, t.category)

/-- One step of building `txn_groups`: `txn_groups[key].append(txn)` on
an insertion-ordered dictionary rendered as an association list — append
the transaction to its key's group, creating the group at the end on
first sight (Python `defaultdict` preserves key insertion order). -/
def add_to_groups : List ((ℚ × Int × String) × List Txn) → Txn →
    List ((ℚ × Int × String) × List Txn)
  | [], t => [(dup_key t, [t])]
  | g :: gs, t =>
    if g.1 = dup_key t then (g.1, g.2 ++ [t]) :: gs else g :: add_to_groups gs t

/-- The `txn_groups` dictionary of
`TransactionMonitorAgent._check_duplicates`, iterated over all
transactions. -/
def txn_groups (transactions : List Txn) : List ((ℚ × Int × String) × List Txn) :=
  transactions.foldl add_to_groups []

/-- The duplicate-alert message naming the member count and the first
member's amount. -/
def dup_message (n : ℕ) (amount : ℚ) : String :=
  "Possible duplicate: " ++ toString n ++ " transactions of ₹" ++ fmt2 amount ++ " on same day"

/-- `TransactionMonitorAgent._check_duplicates`: one info alert per
group with more than one member. -/
def check_duplicates (transactions : List Txn) : List Alert :=
  (txn_groups transactions).filterMap (fun g =>
    if 1 < g.2.length then
      some { type := "duplicate", severity := "info",
             message := dup_message g.2.length ((g.2.head?.map Txn.amount).getD 0),
             transactions := g.2, count := some g.2.length }
    else none)

/-- Python `str.lower()` for the ASCII severity tags, as the character
map over the string's characters. -/
def lower_ascii (s : String) : String := ⟨s.data.map Char.toLower⟩

/-- `TransactionMonitorAgent._severity_order`: rank under the
`severity.lower()` normalisation, defaulting to 3 for unknown tags. -/
def _severity_order (severity : String) : ℕ :=
  let s := lower_ascii severity
  if s = "urgent" then 0 else if s = "warning" then 1 else if s = "info" then 2 else 3

/-- The sort key order used by `process`: ascending severity rank. -/
def sevLE (a b : Alert) : Prop := _severity_order a.severity ≤ _severity_order b.severity

instance : DecidableRel sevLE := fun _ _ => Nat.decLe _ _

instance : IsTotal Alert sevLE := ⟨fun _ _ => Nat.le_total _ _⟩

instance : IsTrans Alert sevLE := ⟨fun _ _ _ => Nat.le_trans⟩

/-- Python `list.sort` is a stable sort; insertion sort with a
non-strict comparison is the stable sort for this key. -/
def sort_alerts (alerts : List Alert) : List Alert := List.insertionSort sevLE alerts

/-- The alert combination of `TransactionMonitorAgent.process`:
anomalies, then budget-overrun alerts, then duplicate alerts, sorted by
severity. -/
def combine_alerts (anomalies budget_alerts duplicate_alerts : List Alert) : List Alert :=
  sort_alerts (anomalies ++ budget_alerts ++ duplicate_alerts)

/-- The comprehensive report slice that the claims inspect: the compiled
health score and the error list. -/
structure Report where
  health_score : ℚ
  errors : List String
deriving DecidableEq

/-- The `AgentState` dictionary threaded through the pipeline, with each
agent-output block reduced to the slice the downstream code reads
(metrics out of `financial_analysis`, `overall_risk_score` out of
`risk_assessment`; `savings_strategy` is opaque to the compiler's
health-score computation). -/
structure PState where
  user_id : String
  transactions : List Txn
  financial_analysis : Option Metrics
  budget_recommendation : Option Alloc
  risk_assessment : Option ℚ
  savings_strategy : Option String
  monitoring_alerts : List Alert
  current_agent : String
  errors : List String
  comprehensive_report : Option Report

/-- One stage of `FinSageOrchestrator._fallback_execution`: set
`current_agent`, call the agent, and on an exception append exactly one
entry `"<agent name> error: <message>"` while keeping the state
otherwise unchanged. -/
def run_stage (name : String) (stage : PState → Except String PState) (s : PState) : PState :=
  let s0 := { s with current_agent := name }
  match stage s0 with
  | Except.ok s1 => s1
  | Except.error e => { s0 with errors := s0.errors ++ [name ++ " error: " ++ e] }

/-- `FinSageOrchestrator._compiler_node`: build the report from whatever
state exists. -/
def compiler_node (s : PState) : PState :=
  let s0 := { s with current_agent := "Report Compiler" }
  let report := Report.mk (calculate_health_score s0.financial_analysis s0.risk_assessment) s0.errors
  { s0 with comprehensive_report := some report }

/-- The state after the first three stages of
`FinSageOrchestrator._fallback_execution` (Analyst, Optimizer, Risk
Assessor), i.e. the state the Savings Coach stage receives. -/
def first_three (analyst optimizer risk_assessor : PState → Except String PState)
    (s : PState) : PState :=
  run_stage "Risk Assessor" risk_assessor
    (run_stage "Budget Optimizer" optimizer (run_stage "Financial Analyst" analyst s))

/-- `FinSageOrchestrator._fallback_execution`: the five stages in fixed
order under per-stage failure isolation, then the compiler.  The agents
are parameters because their bodies call the external text-generation
service; `Except.error` models a raised exception. -/
def fallback_execution
    (analyst optimizer risk_assessor savings_coach monitor : PState → Except String PState)
    (s : PState) : PState :=
  let s1 := run_stage "Financial Analyst" analyst s
  let s2 := run_stage "Budget Optimizer" optimizer s1
  let s3 := run_stage "Risk Assessor" risk_assessor s2
  let s4 := run_stage "Savings Coach" savings_coach s3
  let s5 := run_stage "Transaction Monitor" monitor s4
  compiler_node s5

/-- The four (score, level) pairs a sub-scorer can return. -/
def riskPairs : List RiskScore :=
  [⟨0.1, "Low"⟩, ⟨0.3, "Medium"⟩, ⟨0.6, "High"⟩, ⟨0.9, "Critical"⟩]

def c3m : Metrics :=
  { total_income := 100, total_expenses := 70, net_cash_flow := 30, savings_rate := 30
    income_volatility := 0.1, avg_transaction := 17, transaction_count := 10
    income_count := 2, expense_count := 8 }

def c1txns : List Txn := [⟨"credit", 100, 0, "gig"⟩, ⟨"debit", 200, 0, "food"⟩]

def c1m : Metrics :=
  { total_income := 100, total_expenses := 60, net_cash_flow := 40, savings_rate := 40
    income_volatility := 0.1, avg_transaction := 16, transaction_count := 10
    income_count := 2, expense_count := 8 }

def c5txn : Txn := ⟨"credit", -100, 0, "reversal"⟩

def c5txns : List Txn := [⟨"credit", 120, 1, "gig"⟩, ⟨"debit", -40, 2, "food"⟩]

def RuleAlloc.Nonneg (a : RuleAlloc) : Prop :=
  0 ≤ a.food_groceries ∧ 0 ≤ a.rent_utilities ∧ 0 ≤ a.transportation ∧ 0 ≤ a.healthcare
    ∧ 0 ≤ a.entertainment ∧ 0 ≤ a.personal_care ∧ 0 ≤ a.education ∧ 0 ≤ a.miscellaneous

def c4probs : Alloc := ⟨0.125, 0.125, 0.125, 0.125, 0.125, 0.125, 0.125, 0.125⟩

def c2probs : Alloc := ⟨0.01, 0.93, 0.01, 0.01, 0.01, 0.01, 0.01, 0.01⟩

def c8a : Alert := { type := "anomaly", severity := "info", message := "statistical check" }

def c8b : Alert := { type := "duplicate", severity := "info", message := "duplicate check" }

/-- The group stored under key `k`: the first association-list entry
with that key, empty when absent. -/
def group_val (gs : List ((ℚ × Int × String) × List Txn)) (k : ℚ × Int × String) : List Txn :=
  ((gs.find? (fun g => decide (g.1 = k))).map Prod.snd).getD []

def c10txns : List Txn :=
  [⟨"debit", 9, 0, "a"⟩,
   ⟨"debit", 0, 1, "a"⟩, ⟨"debit", 0, 2, "a"⟩, ⟨"debit", 0, 3, "a"⟩, ⟨"debit", 0, 4, "a"⟩,
   ⟨"debit", 0, 5, "a"⟩, ⟨"debit", 0, 6, "a"⟩, ⟨"debit", 0, 7, "a"⟩, ⟨"debit", 0, 8, "a"⟩,
   ⟨"debit", 1, 9, "a"⟩, ⟨"debit", 1, 10, "a"⟩, ⟨"debit", 1, 11, "a"⟩, ⟨"debit", 1, 12, "a"⟩,
   ⟨"debit", 1, 13, "a"⟩, ⟨"debit", 1, 14, "a"⟩, ⟨"debit", 1, 15, "a"⟩, ⟨"debit", 1, 16, "a"⟩,
   ⟨"debit", 1, 17, "a"⟩]

/-- A stage that succeeds without modifying the state. -/
def ok_stage : PState → Except String PState := fun s => Except.ok s

/-- A coach stage that raises an exception with message "boom". -/
def coach_fail : PState → Except String PState := fun _ => Except.error "boom"

def c6s0 : PState :=
  { user_id := "u1", transactions := [], financial_analysis := none
    budget_recommendation := none, risk_assessment := none, savings_strategy := none
    monitoring_alerts := [], current_agent := "", errors := [], comprehensive_report := none }

def c7credit : Txn := ⟨"credit", 50, 7, "salary"⟩

def c7dupA : Txn := ⟨"debit", 50, 7, "food"⟩

def c7dupB : Txn := ⟨"debit", 50, 8, "food"⟩

def c7txns : List Txn := [c7dupA, c7dupA, c7dupB]

lemma crs_income (m : Metrics) : (calculate_risk_scores m).income_stability_risk =
    if m.income_volatility < 0.2 then ⟨0.1, "Low"⟩
    else if m.income_volatility < 0.4 then ⟨0.3, "Medium"⟩
    else if m.income_volatility < 0.6 then ⟨0.6, "High"⟩
    else ⟨0.9, "Critical"⟩ := rfl

lemma crs_cash (m : Metrics) : (calculate_risk_scores m).cash_flow_risk =
    if 0 < m.net_cash_flow ∧ m.total_income * 0.2 < m.net_cash_flow then ⟨0.1, "Low"⟩
    else if 0 < m.net_cash_flow then ⟨0.3, "Medium"⟩
    else if -m.total_income * 0.1 < m.net_cash_flow then ⟨0.6, "High"⟩
    else ⟨0.9, "Critical"⟩ := rfl

lemma crs_savings (m : Metrics) : (calculate_risk_scores m).savings_risk =
    if 20 ≤ m.savings_rate then ⟨0.1, "Low"⟩
    else if 10 ≤ m.savings_rate then ⟨0.3, "Medium"⟩
    else if 0 ≤ m.savings_rate then ⟨0.6, "High"⟩
    else ⟨0.9, "Critical"⟩ := rfl

lemma crs_emergency (m : Metrics) : (calculate_risk_scores m).emergency_fund_risk = ⟨0.9, "Critical"⟩ := by
  simp only [calculate_risk_scores]
  norm_num

lemma riskPairs_bounds {r : RiskScore} (h : r ∈ riskPairs) : 0.1 ≤ r.score ∧ r.score ≤ 0.9 := by
  fin_cases h <;> norm_num

lemma income_mem (m : Metrics) : (calculate_risk_scores m).income_stability_risk ∈ riskPairs := by
  rw [crs_income]; split_ifs <;> simp [riskPairs]

lemma cash_mem (m : Metrics) : (calculate_risk_scores m).cash_flow_risk ∈ riskPairs := by
  rw [crs_cash]; split_ifs <;> simp [riskPairs]

lemma savings_mem (m : Metrics) : (calculate_risk_scores m).savings_risk ∈ riskPairs := by
  rw [crs_savings]; split_ifs <;> simp [riskPairs]

lemma emergency_mem (m : Metrics) : (calculate_risk_scores m).emergency_fund_risk ∈ riskPairs := by
  rw [crs_emergency]; simp [riskPairs]

/-- C3: each risk sub-scorer follows its fixed threshold ladder with
scores in 0.1/0.3/0.6/0.9 paired with levels Low/Medium/High/Critical,
the overall risk is the 0.3/0.3/0.2/0.2 weighted sum of the four
sub-scores, and it always lies in [0, 1]. -/
theorem c3_risk_ladders (m : Metrics) :
    ((m.income_volatility < 0.2 →
        (calculate_risk_scores m).income_stability_risk = ⟨0.1, "Low"⟩)
      ∧ (0.2 ≤ m.income_volatility → m.income_volatility < 0.4 →
        (calculate_risk_scores m).income_stability_risk = ⟨0.3, "Medium"⟩)
      ∧ (0.4 ≤ m.income_volatility → m.income_volatility < 0.6 →
        (calculate_risk_scores m).income_stability_risk = ⟨0.6, "High"⟩)
      ∧ (0.6 ≤ m.income_volatility →
        (calculate_risk_scores m).income_stability_risk = ⟨0.9, "Critical"⟩))
    ∧ ((0 < m.net_cash_flow → m.total_income * 0.2 < m.net_cash_flow →
        (calculate_risk_scores m).cash_flow_risk = ⟨0.1, "Low"⟩)
      ∧ (0 < m.net_cash_flow → m.net_cash_flow ≤ m.total_income * 0.2 →
        (calculate_risk_scores m).cash_flow_risk = ⟨0.3, "Medium"⟩)
      ∧ (m.net_cash_flow ≤ 0 → -m.total_income * 0.1 < m.net_cash_flow →
        (calculate_risk_scores m).cash_flow_risk = ⟨0.6, "High"⟩)
      ∧ (m.net_cash_flow ≤ 0 → m.net_cash_flow ≤ -m.total_income * 0.1 →
        (calculate_risk_scores m).cash_flow_risk = ⟨0.9, "Critical"⟩))
    ∧ ((20 ≤ m.savings_rate → (calculate_risk_scores m).savings_risk = ⟨0.1, "Low"⟩)
      ∧ (10 ≤ m.savings_rate → m.savings_rate < 20 →
        (calculate_risk_scores m).savings_risk = ⟨0.3, "Medium"⟩)
      ∧ (0 ≤ m.savings_rate → m.savings_rate < 10 →
        (calculate_risk_scores m).savings_risk = ⟨0.6, "High"⟩)
      ∧ (m.savings_rate < 0 → (calculate_risk_scores m).savings_risk = ⟨0.9, "Critical"⟩))
    ∧ ((calculate_risk_scores m).income_stability_risk ∈ riskPairs
      ∧ (calculate_risk_scores m).cash_flow_risk ∈ riskPairs
      ∧ (calculate_risk_scores m).savings_risk ∈ riskPairs
      ∧ (calculate_risk_scores m).emergency_fund_risk ∈ riskPairs)
    ∧ calculate_overall_risk (calculate_risk_scores m)
        = (calculate_risk_scores m).income_stability_risk.score * 0.3
          + (calculate_risk_scores m).cash_flow_risk.score * 0.3
          + (calculate_risk_scores m).savings_risk.score * 0.2
          + (calculate_risk_scores m).emergency_fund_risk.score * 0.2
    ∧ 0 ≤ calculate_overall_risk (calculate_risk_scores m)
    ∧ calculate_overall_risk (calculate_risk_scores m) ≤ 1 := by
  have hbounds : 0 ≤ calculate_overall_risk (calculate_risk_scores m)
      ∧ calculate_overall_risk (calculate_risk_scores m) ≤ 1 := by
    obtain ⟨hi1, hi2⟩ := riskPairs_bounds (income_mem m)
    obtain ⟨hc1, hc2⟩ := riskPairs_bounds (cash_mem m)
    obtain ⟨hs1, hs2⟩ := riskPairs_bounds (savings_mem m)
    obtain ⟨he1, he2⟩ := riskPairs_bounds (emergency_mem m)
    unfold calculate_overall_risk
    constructor <;> nlinarith
  refine ⟨⟨?_, ?_, ?_, ?_⟩, ⟨?_, ?_, ?_, ?_⟩, ⟨?_, ?_, ?_, ?_⟩,
    ⟨income_mem m, cash_mem m, savings_mem m, emergency_mem m⟩, rfl, hbounds.1, hbounds.2⟩
  · intro h; rw [crs_income, if_pos h]
  · intro h1 h2; rw [crs_income, if_neg (by linarith), if_pos h2]
  · intro h1 h2; rw [crs_income, if_neg (by linarith), if_neg (by linarith), if_pos h2]
  · intro h; rw [crs_income, if_neg (by linarith), if_neg (by linarith), if_neg (by linarith)]
  · intro h1 h2; rw [crs_cash, if_pos ⟨h1, h2⟩]
  · intro h1 h2; rw [crs_cash, if_neg (by rintro ⟨-, h⟩; linarith), if_pos h1]
  · intro h1 h2
    rw [crs_cash, if_neg (by rintro ⟨h, -⟩; linarith), if_neg (by linarith), if_pos h2]
  · intro h1 h2
    rw [crs_cash, if_neg (by rintro ⟨h, -⟩; linarith), if_neg (by linarith), if_neg (by linarith)]
  · intro h; rw [crs_savings, if_pos h]
  · intro h1 h2; rw [crs_savings, if_neg (by linarith), if_pos h1]
  · intro h1 h2; rw [crs_savings, if_neg (by linarith), if_neg (by linarith), if_pos h1]
  · intro h; rw [crs_savings, if_neg (by linarith), if_neg (by linarith), if_neg (by linarith)]

/-- C3 witness: concrete metrics exercising the Low rung of each ladder,
with the overall-risk bounds. -/
theorem c3_witness :
    (calculate_risk_scores c3m).income_stability_risk = ⟨0.1, "Low"⟩
    ∧ (calculate_risk_scores c3m).cash_flow_risk = ⟨0.1, "Low"⟩
    ∧ (calculate_risk_scores c3m).savings_risk = ⟨0.1, "Low"⟩
    ∧ 0 ≤ calculate_overall_risk (calculate_risk_scores c3m)
    ∧ calculate_overall_risk (calculate_risk_scores c3m) ≤ 1 := by
  obtain ⟨hi, hc, hs, -, -, h0, h1⟩ := c3_risk_ladders c3m
  exact ⟨hi.1 (by norm_num [c3m]), hc.1 (by norm_num [c3m]) (by norm_num [c3m]),
    hs.1 (by norm_num [c3m]), h0, h1⟩

/-- C9: the emergency-fund months input is hard-coded to 0, so for every
metrics input the emergency-fund sub-risk is (0.9, Critical). -/
theorem c9_emergency_hardcoded (m : Metrics) :
    (calculate_risk_scores m).emergency_fund_risk = ⟨0.9, "Critical"⟩ :=
  crs_emergency m

lemma round1_nonneg {x : ℚ} (h : 0 ≤ x) : 0 ≤ round1 x := by
  unfold round1
  have h1 : (0 : ℤ) ≤ round (x * 10) := by
    rw [round_eq]
    exact Int.le_floor.mpr (by push_cast; linarith)
  positivity

lemma round1_le_100 {x : ℚ} (h : x ≤ 100) : round1 x ≤ 100 := by
  unfold round1
  have h1 : round (x * 10) ≤ 1000 := by
    rw [round_eq]
    have : ⌊x * 10 + 1 / 2⌋ < (1001 : ℤ) := Int.floor_lt.mpr (by push_cast; linarith)
    omega
  have h2 : ((round (x * 10) : ℤ) : ℚ) ≤ 1000 := by exact_mod_cast h1
  linarith

lemma round1_neg {x : ℚ} (h : x ≤ -1) : round1 x < 0 := by
  unfold round1
  have h1 : round (x * 10) ≤ -10 := by
    rw [round_eq]
    have : ⌊x * 10 + 1 / 2⌋ < (-9 : ℤ) := Int.floor_lt.mpr (by push_cast; linarith)
    omega
  have h2 : ((round (x * 10) : ℤ) : ℚ) ≤ -10 := by exact_mod_cast h1
  have h3 : ((round (x * 10) : ℤ) : ℚ) / 10 ≤ -1 := by linarith
  linarith

lemma health_components_bounds (sr cf ri : ℚ) (tc : ℕ) (hsr : 0 ≤ sr) (h0 : 0 ≤ ri) (h1 : ri ≤ 1) :
    0 ≤ min (sr * 1.5) 30 + min (max (cf * 100) 0) 25 + (1 - ri) * 25 + min ((tc : ℚ) / 30 * 20) 20
    ∧ min (sr * 1.5) 30 + min (max (cf * 100) 0) 25 + (1 - ri) * 25 + min ((tc : ℚ) / 30 * 20) 20 ≤ 100 := by
  have t1 : 0 ≤ min (sr * 1.5) 30 := le_min (by nlinarith) (by norm_num)
  have t2 : min (sr * 1.5) 30 ≤ 30 := min_le_right _ _
  have t3 : 0 ≤ min (max (cf * 100) 0) 25 := le_min (le_max_right _ _) (by norm_num)
  have t4 : min (max (cf * 100) 0) 25 ≤ 25 := min_le_right _ _
  have t5 : 0 ≤ (1 - ri) * 25 := by nlinarith
  have t6 : (1 - ri) * 25 ≤ 25 := by nlinarith
  have htc : (0 : ℚ) ≤ (tc : ℚ) := Nat.cast_nonneg tc
  have t7 : 0 ≤ min ((tc : ℚ) / 30 * 20) 20 := le_min (by positivity) (by norm_num)
  have t8 : min ((tc : ℚ) / 30 * 20) 20 ≤ 20 := min_le_right _ _
  constructor <;> linarith

/-- C1 (amended): the compiled health score equals the rounded sum of the
four components exactly as the source computes them, and it lies in
[0, 100] provided the savings rate is non-negative and the overall risk
score lies in [0, 1]; without the savings-rate hypothesis the score can
be negative, because the savings component has no lower cap. -/
theorem c1_health_score_amended (metrics : Option Metrics) (risk : Option ℚ) :
    calculate_health_score metrics risk
      = round1 (min ((metrics.map Metrics.savings_rate).getD 0 * 1.5) 30
          + min (max ((if 0 < (metrics.map Metrics.total_income).getD 1 then
                (metrics.map Metrics.net_cash_flow).getD 0
                  / (metrics.map Metrics.total_income).getD 1
              else 0) * 100) 0) 25
          + (1 - risk.getD 0.5) * 25
          + min (((metrics.map Metrics.transaction_count).getD 0 : ℚ) / 30 * 20) 20)
    ∧ (0 ≤ (metrics.map Metrics.savings_rate).getD 0 → 0 ≤ risk.getD 0.5 → risk.getD 0.5 ≤ 1 →
        0 ≤ calculate_health_score metrics risk ∧ calculate_health_score metrics risk ≤ 100) := by
  refine ⟨rfl, fun hsr hr0 hr1 => ?_⟩
  have hb := health_components_bounds ((metrics.map Metrics.savings_rate).getD 0)
    (if 0 < (metrics.map Metrics.total_income).getD 1 then
        (metrics.map Metrics.net_cash_flow).getD 0 / (metrics.map Metrics.total_income).getD 1
      else 0)
    (risk.getD 0.5) ((metrics.map Metrics.transaction_count).getD 0) hsr hr0 hr1
  exact ⟨round1_nonneg hb.1, round1_le_100 hb.2⟩

/-- C1 counterexample: on the reachable state produced by one credit of
100 and one debit of 200 (savings rate -100), the compiled health score
is negative, so it does not lie in [0, 100]. -/
theorem c1_counterexample :
    calculate_health_score (some (calculate_metrics 0 c1txns))
      (some (calculate_overall_risk (calculate_risk_scores (calculate_metrics 0 c1txns)))) < 0 := by
  have hm : calculate_metrics 0 c1txns =
      { total_income := 100, total_expenses := 200, net_cash_flow := -100, savings_rate := -100
        income_volatility := 0, avg_transaction := 150, transaction_count := 2
        income_count := 1, expense_count := 1 } := by
    simp only [calculate_metrics, c1txns, List.filter, List.map]
    norm_num
    decide
  rw [hm]
  have hr : calculate_overall_risk (calculate_risk_scores
      { total_income := 100, total_expenses := 200, net_cash_flow := -100, savings_rate := -100
        income_volatility := 0, avg_transaction := 150, transaction_count := 2
        income_count := 1, expense_count := 1 }) = 0.66 := by
    norm_num [calculate_risk_scores, calculate_overall_risk]
  rw [hr]
  have : calculate_health_score (some
      { total_income := 100, total_expenses := 200, net_cash_flow := -100, savings_rate := -100
        income_volatility := 0, avg_transaction := 150, transaction_count := 2
        income_count := 1, expense_count := 1 }) (some 0.66)
      = round1 (-841 / 6) := by
    unfold calculate_health_score
    norm_num
  rw [this]
  exact round1_neg (by norm_num)

/-- C1 witness: a concrete state with non-negative savings rate and risk
0.3, where the amended bounds hold. -/
theorem c1_witness :
    (0 : ℚ) ≤ ((some c1m).map Metrics.savings_rate).getD 0
    ∧ (0 : ℚ) ≤ (some (0.3 : ℚ)).getD 0.5 ∧ ((some (0.3 : ℚ)).getD 0.5 : ℚ) ≤ 1
    ∧ 0 ≤ calculate_health_score (some c1m) (some 0.3)
    ∧ calculate_health_score (some c1m) (some 0.3) ≤ 100 := by
  have h := (c1_health_score_amended (some c1m) (some 0.3)).2
    (by norm_num [c1m]) (by norm_num) (by norm_num)
  exact ⟨by norm_num [c1m], by norm_num, by norm_num, h.1, h.2⟩

/-- C5 (amended): total expenses are always non-negative (debit amounts
pass through abs), and total income is non-negative provided every
credit transaction has a non-negative amount — the income sum uses the
raw signed amounts. -/
theorem c5_income_nonneg_amended (incomeStd : ℚ) (txns : List Txn) :
    0 ≤ (calculate_metrics incomeStd txns).total_expenses
    ∧ ((∀ t ∈ txns, t.type = "credit" → 0 ≤ t.amount) →
        0 ≤ (calculate_metrics incomeStd txns).total_income) := by
  constructor
  · show (0 : ℚ) ≤ ((txns.filter (fun t => t.type == "debit")).map (fun t => |t.amount|)).sum
    apply List.sum_nonneg
    intro x hx
    obtain ⟨t, -, rfl⟩ := List.mem_map.mp hx
    exact abs_nonneg _
  · intro h
    show (0 : ℚ) ≤ ((txns.filter (fun t => t.type == "credit")).map (fun t => t.amount)).sum
    apply List.sum_nonneg
    intro x hx
    obtain ⟨t, ht, rfl⟩ := List.mem_map.mp hx
    obtain ⟨htm, htc⟩ := List.mem_filter.mp ht
    exact h t htm (by simpa using htc)

/-- C5 counterexample: a non-empty transaction list with one credit of
amount -100 yields negative total income, so the sign of a credit's
amount is not informational-only for income. -/
theorem c5_counterexample :
    ([c5txn] : List Txn) ≠ [] ∧ (calculate_metrics 0 [c5txn]).total_income < 0 := by
  constructor
  · simp
  · show (calculate_metrics 0 [c5txn]).total_income < 0
    have : (calculate_metrics 0 [c5txn]).total_income = -100 := by
      simp only [calculate_metrics, c5txn, List.filter, List.map]
      norm_num
    rw [this]; norm_num

/-- C5 witness: a concrete list with non-negative credit amounts, where
both metrics are non-negative. -/
theorem c5_witness :
    (∀ t ∈ c5txns, t.type = "credit" → 0 ≤ t.amount)
    ∧ 0 ≤ (calculate_metrics 3 c5txns).total_expenses
    ∧ 0 ≤ (calculate_metrics 3 c5txns).total_income := by
  have h : ∀ t ∈ c5txns, t.type = "credit" → 0 ≤ t.amount := by
    intro t ht
    fin_cases ht <;> (intro hc; first | exact absurd hc (by decide) | norm_num)
  exact ⟨h, (c5_income_nonneg_amended 3 c5txns).1, (c5_income_nonneg_amended 3 c5txns).2 h⟩

lemma drain_donors_nonneg {a : Alloc} (d : ℚ) (ha : a.Nonneg) : (drain_donors a d).Nonneg := by
  obtain ⟨h1, h2, h3, h4, h5, h6, h7, h8⟩ := ha
  unfold drain_donors
  dsimp only
  have he : 0 ≤ a.entertainment - min (a.entertainment * 0.5) (d / 2) := by
    have := min_le_left (a.entertainment * 0.5) (d / 2)
    linarith
  split_ifs with h
  · exact ⟨h1, h2, h3, h4, he, h6, h7, h8⟩
  · refine ⟨h1, h2, h3, h4, he, h6, h7, ?_⟩
    have := min_le_left (a.miscellaneous * 0.5) ((d - min (a.entertainment * 0.5) (d / 2)) / 2)
    show 0 ≤ a.miscellaneous - min (a.miscellaneous * 0.5) _
    linarith

lemma drain_donors_food (a : Alloc) (d : ℚ) : (drain_donors a d).food_groceries = a.food_groceries := by
  unfold drain_donors; dsimp only; split_ifs <;> rfl

lemma drain_donors_savings (a : Alloc) (d : ℚ) : (drain_donors a d).savings = a.savings := by
  unfold drain_donors; dsimp only; split_ifs <;> rfl

lemma nonneg_mk {x : Alloc} (hx : x.Nonneg) {c : ℚ} (hc : 0 ≤ c) :
    (Alloc.mk c x.transport x.utilities x.healthcare x.entertainment x.education
      x.savings x.miscellaneous).Nonneg :=
  ⟨hc, hx.2.1, hx.2.2.1, hx.2.2.2.1, hx.2.2.2.2.1, hx.2.2.2.2.2.1, hx.2.2.2.2.2.2.1,
    hx.2.2.2.2.2.2.2⟩

lemma step_food_nonneg {x : Alloc} (hx : x.Nonneg) : (enforce_food_step x).Nonneg := by
  unfold enforce_food_step
  split_ifs with h
  · exact drain_donors_nonneg _ (nonneg_mk hx (by norm_num))
  · exact hx

lemma step_utilities_nonneg {x : Alloc} (hx : x.Nonneg) : (enforce_utilities_step x).Nonneg := by
  unfold enforce_utilities_step
  split_ifs with h
  · refine drain_donors_nonneg _ ⟨hx.1, hx.2.1, by norm_num, hx.2.2.2.1, hx.2.2.2.2.1,
      hx.2.2.2.2.2.1, hx.2.2.2.2.2.2.1, hx.2.2.2.2.2.2.2⟩
  · exact hx

lemma step_healthcare_nonneg {x : Alloc} (hx : x.Nonneg) : (enforce_healthcare_step x).Nonneg := by
  unfold enforce_healthcare_step
  split_ifs with h
  · refine drain_donors_nonneg _ ⟨hx.1, hx.2.1, hx.2.2.1, by norm_num, hx.2.2.2.2.1,
      hx.2.2.2.2.2.1, hx.2.2.2.2.2.2.1, hx.2.2.2.2.2.2.2⟩
  · exact hx

lemma step_savings_nonneg {x : Alloc} (hx : x.Nonneg) : (enforce_savings_step x).Nonneg := by
  unfold enforce_savings_step
  split_ifs with h
  · refine drain_donors_nonneg _ ⟨hx.1, hx.2.1, hx.2.2.1, hx.2.2.2.1, hx.2.2.2.2.1,
      hx.2.2.2.2.2.1, by norm_num, hx.2.2.2.2.2.2.2⟩
  · exact hx

lemma enforce_nonneg {a : Alloc} (ha : a.Nonneg) : (_enforce_essential_minimums a).Nonneg :=
  step_savings_nonneg (step_healthcare_nonneg (step_utilities_nonneg (step_food_nonneg ha)))

lemma step_food_min (x : Alloc) : 0.2 ≤ (enforce_food_step x).food_groceries := by
  unfold enforce_food_step
  split_ifs with h
  · rw [drain_donors_food]; norm_num
  · linarith [not_lt.mp h]

lemma step_utilities_food (x : Alloc) :
    (enforce_utilities_step x).food_groceries = x.food_groceries := by
  unfold enforce_utilities_step; split_ifs <;> simp [drain_donors_food]

lemma step_healthcare_food (x : Alloc) :
    (enforce_healthcare_step x).food_groceries = x.food_groceries := by
  unfold enforce_healthcare_step; split_ifs <;> simp [drain_donors_food]

lemma step_savings_food (x : Alloc) :
    (enforce_savings_step x).food_groceries = x.food_groceries := by
  unfold enforce_savings_step; split_ifs <;> simp [drain_donors_food]

lemma enforce_food (a : Alloc) : 0.2 ≤ (_enforce_essential_minimums a).food_groceries := by
  unfold _enforce_essential_minimums
  rw [step_savings_food, step_healthcare_food, step_utilities_food]
  exact step_food_min a

lemma step_savings_min (x : Alloc) : 0.1 ≤ (enforce_savings_step x).savings := by
  unfold enforce_savings_step
  split_ifs with h
  · rw [drain_donors_savings]; norm_num
  · linarith [not_lt.mp h]

lemma enforce_savings (a : Alloc) : 0.1 ≤ (_enforce_essential_minimums a).savings :=
  step_savings_min _

lemma adjust_nonneg {a : Alloc} (rt : String) (ha : a.Nonneg) : (_adjust_for_risk a rt).Nonneg := by
  obtain ⟨h1, h2, h3, h4, h5, h6, h7, h8⟩ := ha
  unfold _adjust_for_risk
  split_ifs with hl hh
  · exact ⟨h1, h2, h3, h4, by nlinarith, h6, by nlinarith, h8⟩
  · exact ⟨h1, h2, h3, h4, by nlinarith, h6, by nlinarith, h8⟩
  · exact ⟨h1, h2, h3, h4, h5, h6, h7, h8⟩

lemma total_divAll (a : Alloc) (s : ℚ) : (a.divAll s).total = a.total / s := by
  unfold Alloc.divAll Alloc.total; ring

lemma total_mulAll (a : Alloc) (c : ℚ) : (a.mulAll c).total = a.total * c := by
  unfold Alloc.mulAll Alloc.total; ring

lemma total_pos_of_nonneg_food {a : Alloc} (ha : a.Nonneg) (hf : 0.2 ≤ a.food_groceries) :
    0 < a.total := by
  obtain ⟨h1, h2, h3, h4, h5, h6, h7, h8⟩ := ha
  unfold Alloc.total
  linarith

/-- C4: for every non-negative softmax output, non-negative budget and
risk tolerance, the policy-path allocation is non-negative and sums
exactly to the budget (hence within 1e-6), and so does the rule-based
25/30/10/8/10/5/7/5 split. -/
theorem c4_allocation_sums (probs : Alloc) (total_budget : ℚ) (risk_tolerance : String)
    (hp : probs.Nonneg) (htb : 0 ≤ total_budget) :
    ((recommend_budget probs total_budget risk_tolerance).Nonneg
      ∧ (recommend_budget probs total_budget risk_tolerance).total = total_budget)
    ∧ ((_rule_based_allocation total_budget).Nonneg
      ∧ (_rule_based_allocation total_budget).total = total_budget) := by
  have hadj : (_adjust_for_risk probs risk_tolerance).Nonneg := adjust_nonneg _ hp
  have henf : (_enforce_essential_minimums (_adjust_for_risk probs risk_tolerance)).Nonneg :=
    enforce_nonneg hadj
  set e := _enforce_essential_minimums (_adjust_for_risk probs risk_tolerance) with he
  have hpos : 0 < e.total := total_pos_of_nonneg_food henf (by rw [he]; exact enforce_food _)
  constructor
  · constructor
    · obtain ⟨h1, h2, h3, h4, h5, h6, h7, h8⟩ := henf
      refine ⟨?_, ?_, ?_, ?_, ?_, ?_, ?_, ?_⟩ <;>
        exact mul_nonneg (div_nonneg (by assumption) hpos.le) htb
    · show ((e.divAll e.total).mulAll total_budget).total = total_budget
      rw [total_mulAll, total_divAll, div_self hpos.ne', one_mul]
  · constructor
    · refine ⟨?_, ?_, ?_, ?_, ?_, ?_, ?_, ?_⟩ <;>
        · show 0 ≤ total_budget * _
          positivity
    · show (_rule_based_allocation total_budget).total = total_budget
      unfold _rule_based_allocation RuleAlloc.total
      ring

/-- C4 witness: the allocation contract evaluated at a uniform softmax
output and a budget of 800. -/
theorem c4_witness :
    c4probs.Nonneg ∧ (0 : ℚ) ≤ 800
    ∧ ((recommend_budget c4probs 800 "medium").Nonneg
      ∧ (recommend_budget c4probs 800 "medium").total = 800)
    ∧ ((_rule_based_allocation 800).Nonneg ∧ (_rule_based_allocation 800).total = 800) := by
  have hp : c4probs.Nonneg := by norm_num [Alloc.Nonneg, c4probs]
  have h := c4_allocation_sums c4probs 800 "medium" hp (by norm_num)
  exact ⟨hp, by norm_num, h.1, h.2⟩

/-- C2 (amended): the essential minimums hold after the enforcement pass
and before renormalisation (food at least 20%, savings at least 10%, for
every risk tolerance); on the rule-based path the food share is exactly
25%.  The final policy-path proportions can fall below the floors after
renormalisation, and the rule-based taxonomy has no savings category. -/
theorem c2_essential_minimums_amended (probs : Alloc) (risk_tolerance : String)
    (total_budget : ℚ) (htb : 0 < total_budget) :
    0.2 ≤ (_enforce_essential_minimums (_adjust_for_risk probs risk_tolerance)).food_groceries
    ∧ 0.1 ≤ (_enforce_essential_minimums (_adjust_for_risk probs risk_tolerance)).savings
    ∧ (_rule_based_allocation total_budget).food_groceries
        / (_rule_based_allocation total_budget).total = 0.25 := by
  refine ⟨enforce_food _, enforce_savings _, ?_⟩
  have ht : (_rule_based_allocation total_budget).total = total_budget := by
    unfold _rule_based_allocation RuleAlloc.total; ring
  rw [ht]
  show total_budget * 0.25 / total_budget = 0.25
  rw [mul_comm, mul_div_assoc, div_self htb.ne', mul_one]

/-- C2 counterexample: for a valid softmax output concentrated on
transport, the final renormalised allocation gives food less than 15%
and savings less than 8%, far outside rounding tolerance of the claimed
20% / 10% floors. -/
theorem c2_counterexample :
    c2probs.Nonneg ∧ c2probs.total = 1
    ∧ (recommend_budget c2probs 1 "medium").food_groceries < 0.15
    ∧ (recommend_budget c2probs 1 "medium").savings < 0.08 := by
  have h0 : _adjust_for_risk c2probs "medium" = c2probs := by
    simp [_adjust_for_risk]
  have h1 : enforce_food_step c2probs =
      ⟨1/5, 93/100, 1/100, 1/100, 1/200, 1/100, 1/100, 1/200⟩ := by
    norm_num [enforce_food_step, drain_donors, c2probs, min_def]
  have h2 : enforce_utilities_step ⟨1/5, 93/100, 1/100, 1/100, 1/200, 1/100, 1/100, 1/200⟩ =
      ⟨1/5, 93/100, 1/10, 1/100, 1/400, 1/100, 1/100, 1/400⟩ := by
    norm_num [enforce_utilities_step, drain_donors, min_def]
  have h3 : enforce_healthcare_step ⟨1/5, 93/100, 1/10, 1/100, 1/400, 1/100, 1/100, 1/400⟩ =
      ⟨1/5, 93/100, 1/10, 1/20, 1/800, 1/100, 1/100, 1/800⟩ := by
    norm_num [enforce_healthcare_step, drain_donors, min_def]
  have h4 : enforce_savings_step ⟨1/5, 93/100, 1/10, 1/20, 1/800, 1/100, 1/100, 1/800⟩ =
      ⟨1/5, 93/100, 1/10, 1/20, 1/1600, 1/100, 1/10, 1/1600⟩ := by
    norm_num [enforce_savings_step, drain_donors, min_def]
  have h5 : recommend_budget c2probs 1 "medium" =
      (Alloc.mulAll (Alloc.divAll ⟨1/5, 93/100, 1/10, 1/20, 1/1600, 1/100, 1/10, 1/1600⟩
        (Alloc.total ⟨1/5, 93/100, 1/10, 1/20, 1/1600, 1/100, 1/10, 1/1600⟩)) 1) := by
    unfold recommend_budget _enforce_essential_minimums
    dsimp only
    rw [h0, h1, h2, h3, h4]
  refine ⟨by norm_num [Alloc.Nonneg, c2probs], by norm_num [Alloc.total, c2probs], ?_, ?_⟩ <;>
    rw [h5] <;> norm_num [Alloc.divAll, Alloc.mulAll, Alloc.total]

/-- C2 witness: the amended floors evaluated at a uniform softmax output
with low risk tolerance and a budget of 100. -/
theorem c2_witness :
    0.2 ≤ (_enforce_essential_minimums
        (_adjust_for_risk ⟨0.125, 0.125, 0.125, 0.125, 0.125, 0.125, 0.125, 0.125⟩ "low")).food_groceries
    ∧ 0.1 ≤ (_enforce_essential_minimums
        (_adjust_for_risk ⟨0.125, 0.125, 0.125, 0.125, 0.125, 0.125, 0.125, 0.125⟩ "low")).savings
    ∧ (_rule_based_allocation 100).food_groceries / (_rule_based_allocation 100).total = 0.25 := by
  have h := c2_essential_minimums_amended
    ⟨0.125, 0.125, 0.125, 0.125, 0.125, 0.125, 0.125, 0.125⟩ "low" 100 (by norm_num)
  exact ⟨h.1, h.2.1, h.2.2⟩

lemma sev_filter_orderedInsert (k : ℕ) (x : Alert) (l : List Alert) :
    (List.orderedInsert sevLE x l).filter (fun a => _severity_order a.severity == k)
      = if _severity_order x.severity = k
          then x :: l.filter (fun a => _severity_order a.severity == k)
          else l.filter (fun a => _severity_order a.severity == k) := by
  induction l with
  | nil =>
    by_cases hx : _severity_order x.severity = k
    all_goals simp [List.orderedInsert, List.filter_cons, beq_iff_eq, hx]
  | cons b t ih =>
    simp only [List.orderedInsert]
    by_cases hr : sevLE x b
    · rw [if_pos hr]
      by_cases hx : _severity_order x.severity = k
      all_goals simp [List.filter_cons, beq_iff_eq, hx]
    · rw [if_neg hr]
      have hlt : _severity_order b.severity < _severity_order x.severity := by
        simpa [sevLE, not_le] using hr
      by_cases hb : _severity_order b.severity = k
      · have hx : ¬ _severity_order x.severity = k := by omega
        simp [List.filter_cons, beq_iff_eq, ih, hb, hx]
      · by_cases hx : _severity_order x.severity = k
        all_goals simp [List.filter_cons, beq_iff_eq, ih, hb, hx]

lemma sev_filter_sort (k : ℕ) (l : List Alert) :
    (sort_alerts l).filter (fun a => _severity_order a.severity == k)
      = l.filter (fun a => _severity_order a.severity == k) := by
  induction l with
  | nil => rfl
  | cons b t ih =>
    show (List.orderedInsert sevLE b (List.insertionSort sevLE t)).filter _ = _
    rw [sev_filter_orderedInsert]
    rw [show sort_alerts t = List.insertionSort sevLE t from rfl] at ih
    by_cases hb : _severity_order b.severity = k
    · rw [if_pos hb]
      simp [List.filter_cons, beq_iff_eq, ih, hb]
    · rw [if_neg hb]
      simp [List.filter_cons, beq_iff_eq, ih, hb]

lemma sev_order_info : _severity_order "info" = 2 := rfl

lemma sev_order_urgent : _severity_order "urgent" = 0 := rfl

/-- C8: the combined alert list is sorted ascending by severity rank
(urgent 0 < warning 1 < info 2), ties keep detection order (the filter
by rank is unchanged), and consequently no info alert precedes an urgent
one. -/
theorem c8_alerts_sorted (anomalies budget_alerts duplicate_alerts : List Alert) :
    List.Sorted sevLE (combine_alerts anomalies budget_alerts duplicate_alerts)
    ∧ (∀ k : ℕ,
        (combine_alerts anomalies budget_alerts duplicate_alerts).filter
            (fun a => _severity_order a.severity == k)
          = (anomalies ++ budget_alerts ++ duplicate_alerts).filter
              (fun a => _severity_order a.severity == k))
    ∧ (∀ i j : ℕ, i < j →
        ∀ (hi : i < (combine_alerts anomalies budget_alerts duplicate_alerts).length)
          (hj : j < (combine_alerts anomalies budget_alerts duplicate_alerts).length),
        ((combine_alerts anomalies budget_alerts duplicate_alerts).get ⟨i, hi⟩).severity = "info" →
        ((combine_alerts anomalies budget_alerts duplicate_alerts).get ⟨j, hj⟩).severity ≠ "urgent") := by
  have hsorted : List.Sorted sevLE (combine_alerts anomalies budget_alerts duplicate_alerts) :=
    List.sorted_insertionSort sevLE _
  refine ⟨hsorted, fun k => sev_filter_sort k _, fun i j hij hi hj hinfo hurg => ?_⟩
  have hle := List.pairwise_iff_get.mp hsorted ⟨i, hi⟩ ⟨j, hj⟩ hij
  rw [sevLE, hinfo, hurg, sev_order_info, sev_order_urgent] at hle
  omega

lemma c8_len2 : 1 < (combine_alerts [c8a] [] [c8b]).length := by decide

lemma c8_len1 : 0 < (combine_alerts [c8a] [] [c8b]).length := by decide

/-- C8 witness: the sorting facts evaluated on two concrete info alerts
from different detectors. -/
theorem c8_witness :
    List.Sorted sevLE (combine_alerts [c8a] [] [c8b])
    ∧ (combine_alerts [c8a] [] [c8b]).filter (fun a => _severity_order a.severity == 2)
        = ([c8a] ++ [] ++ [c8b]).filter (fun a => _severity_order a.severity == 2)
    ∧ ((combine_alerts [c8a] [] [c8b]).get ⟨1, c8_len2⟩).severity ≠ "urgent" := by
  have h := c8_alerts_sorted [c8a] [] [c8b]
  refine ⟨h.1, h.2.1 2, h.2.2 0 1 (by norm_num) c8_len1 c8_len2 ?_⟩
  rfl

lemma group_val_add_to_groups (gs : List ((ℚ × Int × String) × List Txn)) (t : Txn)
    (k : ℚ × Int × String) :
    group_val (add_to_groups gs t) k
      = group_val gs k ++ (if dup_key t = k then [t] else []) := by
  induction gs with
  | nil =>
    by_cases hk : dup_key t = k
    · simp [add_to_groups, group_val, List.find?, hk]
    · simp [add_to_groups, group_val, List.find?, hk]
  | cons g gs ih =>
    by_cases hg : g.1 = dup_key t
    · rw [show add_to_groups (g :: gs) t = (g.1, g.2 ++ [t]) :: gs from by
        simp [add_to_groups, hg]]
      by_cases hk : g.1 = k
      · have htk : dup_key t = k := hg ▸ hk
        simp [group_val, List.find?, hk, htk]
      · have htk : ¬ dup_key t = k := fun h => hk (hg.trans h)
        simp [group_val, List.find?, hk, htk]
    · rw [show add_to_groups (g :: gs) t = g :: add_to_groups gs t from by
        simp [add_to_groups, hg]]
      by_cases hk : g.1 = k
      · have htk : ¬ dup_key t = k := fun h => hg (hk.trans h.symm)
        simp [group_val, List.find?, hk, htk]
      · simp only [group_val, List.find?] at ih ⊢
        simp [hk, ih]

lemma group_val_foldl (l : List Txn) (gs : List ((ℚ × Int × String) × List Txn))
    (k : ℚ × Int × String) :
    group_val (l.foldl add_to_groups gs) k
      = group_val gs k ++ l.filter (fun t => decide (dup_key t = k)) := by
  induction l generalizing gs with
  | nil => simp
  | cons t l ih =>
    rw [List.foldl_cons, ih, group_val_add_to_groups]
    by_cases hk : dup_key t = k
    · simp [List.filter_cons, hk]
    · simp [List.filter_cons, hk]

lemma group_val_txn_groups (txns : List Txn) (k : ℚ × Int × String) :
    group_val (txn_groups txns) k = txns.filter (fun t => decide (dup_key t = k)) := by
  rw [txn_groups, group_val_foldl]
  rfl

lemma keys_add_to_groups (gs : List ((ℚ × Int × String) × List Txn)) (t : Txn) :
    (add_to_groups gs t).map Prod.fst
      = gs.map Prod.fst
        ++ (if dup_key t ∈ gs.map Prod.fst then [] else [dup_key t]) := by
  induction gs with
  | nil => simp [add_to_groups]
  | cons g gs ih =>
    by_cases hg : g.1 = dup_key t
    · rw [show add_to_groups (g :: gs) t = (g.1, g.2 ++ [t]) :: gs from by
        simp [add_to_groups, hg]]
      simp [hg]
    · rw [show add_to_groups (g :: gs) t = g :: add_to_groups gs t from by
        simp [add_to_groups, hg]]
      have hne : ¬ dup_key t = g.1 := fun h => hg h.symm
      simp only [List.map_cons, List.cons_append, ih, List.mem_cons, hne, false_or]

lemma keys_nodup_foldl (l : List Txn) (gs : List ((ℚ × Int × String) × List Txn))
    (h : (gs.map Prod.fst).Nodup) : ((l.foldl add_to_groups gs).map Prod.fst).Nodup := by
  induction l generalizing gs with
  | nil => simpa using h
  | cons t l ih =>
    rw [List.foldl_cons]
    apply ih
    rw [keys_add_to_groups]
    by_cases hm : dup_key t ∈ gs.map Prod.fst
    · simpa [hm] using h
    · simp only [hm, if_false]
      exact List.Nodup.append h (List.nodup_singleton _) (by simpa using hm)

lemma keys_nodup_txn_groups (txns : List Txn) :
    ((txn_groups txns).map Prod.fst).Nodup :=
  keys_nodup_foldl txns [] (by simp)

lemma group_val_of_mem {gs : List ((ℚ × Int × String) × List Txn)}
    (hnd : (gs.map Prod.fst).Nodup) {g : (ℚ × Int × String) × List Txn} (hg : g ∈ gs) :
    group_val gs g.1 = g.2 := by
  induction gs with
  | nil => cases hg
  | cons h t ih =>
    rcases List.mem_cons.mp hg with rfl | hmem
    · simp [group_val, List.find?]
    · have hnd' : (t.map Prod.fst).Nodup := (List.nodup_cons.mp hnd).2
      have hne : h.1 ≠ g.1 := by
        intro he
        exact (List.nodup_cons.mp hnd).1 (he ▸ List.mem_map_of_mem Prod.fst hmem)
      simp only [group_val, List.find?]
      rw [show (decide (h.1 = g.1)) = false from by simpa using hne]
      exact ih hnd' hmem

lemma mem_txn_groups_eq_filter (txns : List Txn) {g : (ℚ × Int × String) × List Txn}
    (hg : g ∈ txn_groups txns) :
    g.2 = txns.filter (fun t => decide (dup_key t = g.1)) := by
  rw [← group_val_txn_groups]
  exact (group_val_of_mem (keys_nodup_txn_groups txns) hg).symm

lemma exists_group_of_filter_ne_nil (txns : List Txn) (k : ℚ × Int × String)
    (h : txns.filter (fun t => decide (dup_key t = k)) ≠ []) :
    ∃ g ∈ txn_groups txns, g.1 = k ∧ g.2 = txns.filter (fun t => decide (dup_key t = k)) := by
  have hgv : group_val (txn_groups txns) k ≠ [] := by
    rw [group_val_txn_groups]; exact h
  unfold group_val at hgv
  cases hfind : (txn_groups txns).find? (fun g => decide (g.1 = k)) with
  | none => rw [hfind] at hgv; simp at hgv
  | some g =>
    have hmem := List.mem_of_find?_eq_some hfind
    have hpred := List.find?_some hfind
    have hk : g.1 = k := by simpa using hpred
    refine ⟨g, hmem, hk, ?_⟩
    rw [← hk, mem_txn_groups_eq_filter txns hmem]

lemma check_duplicates_map_transactions (txns : List Txn) :
    (check_duplicates txns).map Alert.transactions
      = (txn_groups txns).filterMap (fun g => if 1 < g.2.length then some g.2 else none) := by
  unfold check_duplicates
  rw [List.map_filterMap]
  apply List.filterMap_congr
  intro g _
  by_cases h : 1 < g.2.length
  · simp [h]
  · simp [h]

lemma filters_ne_of_keys_ne (txns : List Txn) {k k' : ℚ × Int × String} (hne : k ≠ k')
    (hlen : 1 < (txns.filter (fun t => decide (dup_key t = k))).length) :
    txns.filter (fun t => decide (dup_key t = k)) ≠ txns.filter (fun t => decide (dup_key t = k')) := by
  intro heq
  have hne' : txns.filter (fun t => decide (dup_key t = k)) ≠ [] := by
    intro h
    rw [h] at hlen
    simp at hlen
  obtain ⟨t, ht⟩ := List.exists_mem_of_ne_nil _ hne'
  have h1 : dup_key t = k := by simpa using (List.mem_filter.mp ht).2
  have ht' : t ∈ txns.filter (fun t => decide (dup_key t = k')) := heq ▸ ht
  have h2 : dup_key t = k' := by simpa using (List.mem_filter.mp ht').2
  exact hne (h1 ▸ h2)

/-- C7 (amended): duplicate detection groups all transactions (not only
outflows) by (amount rounded to 2 decimals, calendar day, category);
every alert is an info alert for such a group with more than one member,
reporting the member count and the first member's amount, and every such
group produces exactly one alert. -/
theorem c7_duplicates_amended (txns : List Txn) :
    (∀ a ∈ check_duplicates txns,
        a.severity = "info" ∧ a.type = "duplicate"
        ∧ 1 < a.transactions.length
        ∧ a.count = some a.transactions.length
        ∧ a.message = dup_message a.transactions.length ((a.transactions.head?.map Txn.amount).getD 0)
        ∧ ∃ k, a.transactions = txns.filter (fun t => decide (dup_key t = k)))
    ∧ (∀ k : ℚ × Int × String,
        1 < (txns.filter (fun t => decide (dup_key t = k))).length →
        ∃ a ∈ check_duplicates txns,
          a.transactions = txns.filter (fun t => decide (dup_key t = k))
          ∧ a.count = some (txns.filter (fun t => decide (dup_key t = k))).length)
    ∧ ((check_duplicates txns).map Alert.transactions).Nodup := by
  refine ⟨?_, ?_, ?_⟩
  · intro a ha
    obtain ⟨g, hg, hfa⟩ := List.mem_filterMap.mp ha
    by_cases hlen : 1 < g.2.length
    · rw [if_pos hlen] at hfa
      obtain rfl := Option.some.inj hfa
      refine ⟨rfl, rfl, hlen, rfl, rfl, g.1, ?_⟩
      exact mem_txn_groups_eq_filter txns hg
    · rw [if_neg hlen] at hfa
      cases hfa
  · intro k hk
    have hfilter_ne : txns.filter (fun t => decide (dup_key t = k)) ≠ [] := by
      intro h; rw [h] at hk; simp at hk
    obtain ⟨g, hg, hgk, hgv⟩ := exists_group_of_filter_ne_nil txns k hfilter_ne
    have hlen : 1 < g.2.length := by rw [hgv]; exact hk
    refine ⟨{ type := "duplicate", severity := "info",
              message := dup_message g.2.length ((g.2.head?.map Txn.amount).getD 0),
              transactions := g.2, count := some g.2.length }, ?_, by simpa using hgv,
            by simp [hgv]⟩
    exact List.mem_filterMap.mpr ⟨g, hg, by rw [if_pos hlen]⟩
  · rw [check_duplicates_map_transactions]
    have hpw0 : (txn_groups txns).Pairwise (fun g g' => g.1 ≠ g'.1) := by
      have := keys_nodup_txn_groups txns
      rw [List.Nodup, List.pairwise_map] at this
      exact this
    have hpw : (txn_groups txns).Pairwise
        (fun g g' => 1 < g.2.length → 1 < g'.2.length → g.2 ≠ g'.2) := by
      refine List.Pairwise.imp_of_mem ?_ hpw0
      intro g g' hg hg' hne hl hl'
      rw [mem_txn_groups_eq_filter txns hg, mem_txn_groups_eq_filter txns hg']
      refine filters_ne_of_keys_ne txns hne ?_
      rw [← mem_txn_groups_eq_filter txns hg]
      exact hl
    refine List.Pairwise.filterMap _ ?_ hpw
    intro g g' hr b hb b' hb'
    by_cases hl : 1 < g.2.length
    · rw [if_pos hl] at hb
      by_cases hl' : 1 < g'.2.length
      · rw [if_pos hl'] at hb'
        obtain rfl := Option.mem_some_iff.mp hb  -- b = g.2? direction check
        obtain rfl := Option.mem_some_iff.mp hb'
        exact hr hl hl'
      · rw [if_neg hl'] at hb'; cases hb'
    · rw [if_neg hl] at hb; cases hb

/-- C10: with fewer than 5 debit transactions no statistical-anomaly
alerts are emitted; otherwise the detector emits the per-transaction
alert lists in order, each debit yields at most one alert, and a debit
whose absolute amount exceeds mean + 3 std yields exactly one urgent
alert and no warning alert even though it also exceeds the
mean + 2.5 std warning threshold. -/
theorem c10_anomaly_detector (std_expense : ℚ) (txns : List Txn)
    (h0 : 0 ≤ std_expense)
    (_hsq : std_expense * std_expense = varQ (expenses_of txns)) :
    ((expenses_of txns).length < 5 → detect_anomalies std_expense txns = [])
    ∧ (¬ (expenses_of txns).length < 5 →
        detect_anomalies std_expense txns
          = txns.flatMap (anomaly_alerts_for (meanQ (expenses_of txns)) std_expense))
    ∧ (∀ t : Txn, (anomaly_alerts_for (meanQ (expenses_of txns)) std_expense t).length ≤ 1)
    ∧ (∀ t : Txn, t.type = "debit" →
        meanQ (expenses_of txns) + 3 * std_expense < |t.amount| →
        meanQ (expenses_of txns) + 2.5 * std_expense < |t.amount|
        ∧ (anomaly_alerts_for (meanQ (expenses_of txns)) std_expense t).map Alert.severity
            = ["urgent"]) := by
  refine ⟨?_, ?_, ?_, ?_⟩
  · intro h; unfold detect_anomalies; rw [if_pos h]
  · intro h; unfold detect_anomalies; rw [if_neg h]
  · intro t
    unfold anomaly_alerts_for
    dsimp only
    split_ifs <;> simp
  · intro t ht hgt
    refine ⟨by linarith, ?_⟩
    unfold anomaly_alerts_for
    dsimp only
    rw [if_neg (by simp [ht]), if_pos hgt]
    simp

lemma c10_expenses : expenses_of c10txns
    = [9, 0, 0, 0, 0, 0, 0, 0, 0, 1, 1, 1, 1, 1, 1, 1, 1, 1] := by
  simp [expenses_of, c10txns]

lemma c10_mean : meanQ (expenses_of c10txns) = 1 := by
  rw [c10_expenses]
  norm_num [meanQ]

lemma c10_var : varQ (expenses_of c10txns) = 4 := by
  unfold varQ
  rw [c10_mean, c10_expenses]
  norm_num [meanQ]

/-- C10 witness: an 18-debit list with mean 1 and standard deviation 2,
whose outlier of amount 9 produces exactly one urgent alert. -/
theorem c10_witness :
    (0 : ℚ) ≤ 2 ∧ (2 : ℚ) * 2 = varQ (expenses_of c10txns)
    ∧ ¬ (expenses_of c10txns).length < 5
    ∧ meanQ (expenses_of c10txns) + 3 * 2 < |(⟨"debit", 9, 0, "a"⟩ : Txn).amount|
    ∧ meanQ (expenses_of c10txns) + 2.5 * 2 < |(⟨"debit", 9, 0, "a"⟩ : Txn).amount|
    ∧ (anomaly_alerts_for (meanQ (expenses_of c10txns)) 2 ⟨"debit", 9, 0, "a"⟩).map Alert.severity
        = ["urgent"]
    ∧ detect_anomalies 2 c10txns
        = c10txns.flatMap (anomaly_alerts_for (meanQ (expenses_of c10txns)) 2) := by
  have hsq : (2 : ℚ) * 2 = varQ (expenses_of c10txns) := by rw [c10_var]; norm_num
  have hlen : ¬ (expenses_of c10txns).length < 5 := by rw [c10_expenses]; norm_num
  have hgt : meanQ (expenses_of c10txns) + 3 * 2 < |(⟨"debit", 9, 0, "a"⟩ : Txn).amount| := by
    rw [c10_mean]; norm_num
  have h := c10_anomaly_detector 2 c10txns (by norm_num) hsq
  obtain ⟨hw, hu⟩ := h.2.2.2 ⟨"debit", 9, 0, "a"⟩ rfl hgt
  exact ⟨by norm_num, hsq, hlen, hgt, hw, hu, h.2.1 hlen⟩

/-- C6 (amended): when the Savings Coach stage raises, the fallback
pipeline appends exactly one entry "Savings Coach error: ..." (not
"Coach error: ..."), the Monitor and Compiler still execute, and the
report's health score is computed from the financial analysis and risk
assessment present after the first three stages. -/
theorem c6_coach_failure_amended
    (analyst optimizer risk_assessor savings_coach monitor : PState → Except String PState)
    (s : PState) (e : String)
    (hcoach : savings_coach
        { first_three analyst optimizer risk_assessor s with current_agent := "Savings Coach" }
      = Except.error e)
    (hmon : ∀ st st', monitor st = Except.ok st' →
        st'.financial_analysis = st.financial_analysis
        ∧ st'.risk_assessment = st.risk_assessment
        ∧ st'.errors = st.errors) :
    (fallback_execution analyst optimizer risk_assessor savings_coach monitor s
      = compiler_node (run_stage "Transaction Monitor" monitor
          { first_three analyst optimizer risk_assessor s with
              current_agent := "Savings Coach"
              errors := (first_three analyst optimizer risk_assessor s).errors
                ++ ["Savings Coach error: " ++ e] }))
    ∧ (fallback_execution analyst optimizer risk_assessor savings_coach monitor s).comprehensive_report
        = some (Report.mk
            (calculate_health_score
              (first_three analyst optimizer risk_assessor s).financial_analysis
              (first_three analyst optimizer risk_assessor s).risk_assessment)
            (fallback_execution analyst optimizer risk_assessor savings_coach monitor s).errors)
    ∧ (∃ post : List String,
        (post = [] ∨ ∃ e2, post = ["Transaction Monitor error: " ++ e2])
        ∧ (fallback_execution analyst optimizer risk_assessor savings_coach monitor s).errors
            = (first_three analyst optimizer risk_assessor s).errors
              ++ ["Savings Coach error: " ++ e] ++ post) := by
  set s3 := first_three analyst optimizer risk_assessor s with hs3
  have hs4 : run_stage "Savings Coach" savings_coach s3
      = { s3 with
          current_agent := "Savings Coach"
          errors := s3.errors ++ ["Savings Coach error: " ++ e] } := by
    unfold run_stage
    dsimp only
    rw [hcoach]
    rfl
  have hmain : fallback_execution analyst optimizer risk_assessor savings_coach monitor s
      = compiler_node (run_stage "Transaction Monitor" monitor
          { s3 with
              current_agent := "Savings Coach"
              errors := s3.errors ++ ["Savings Coach error: " ++ e] }) := by
    show compiler_node (run_stage "Transaction Monitor" monitor
        (run_stage "Savings Coach" savings_coach s3)) = _
    rw [hs4]
  set s4 := { s3 with
      current_agent := "Savings Coach"
      errors := s3.errors ++ ["Savings Coach error: " ++ e] } with hs4def
  refine ⟨hmain, ?_, ?_⟩
  · rw [hmain]
    cases hm : monitor { s4 with current_agent := "Transaction Monitor" } with
    | ok st' =>
      obtain ⟨hfa, hra, herr⟩ := hmon _ _ hm
      show (compiler_node (run_stage "Transaction Monitor" monitor s4)).comprehensive_report = _
      unfold run_stage compiler_node
      dsimp only
      rw [hm]
      dsimp only
      rw [hfa, hra, herr]
    | error e2 =>
      unfold run_stage compiler_node
      dsimp only
      rw [hm]
  · rw [hmain]
    cases hm : monitor { s4 with current_agent := "Transaction Monitor" } with
    | ok st' =>
      obtain ⟨hfa, hra, herr⟩ := hmon _ _ hm
      refine ⟨[], Or.inl rfl, ?_⟩
      show (compiler_node (run_stage "Transaction Monitor" monitor s4)).errors = _
      unfold run_stage compiler_node
      dsimp only
      rw [hm]
      dsimp only
      rw [herr]
      simp [hs4def]
    | error e2 =>
      refine ⟨["Transaction Monitor error: " ++ e2], Or.inr ⟨e2, rfl⟩, ?_⟩
      show (compiler_node (run_stage "Transaction Monitor" monitor s4)).errors = _
      unfold run_stage compiler_node
      dsimp only
      rw [hm]
      dsimp only
      simp [hs4def]

/-- C6 counterexample: a run in which the coach raises "boom" records
the entry "Savings Coach error: boom", which is not of the form
"Coach error: ..." for any suffix. -/
theorem c6_counterexample :
    (fallback_execution ok_stage ok_stage ok_stage coach_fail ok_stage c6s0).errors
      = ["Savings Coach error: boom"]
    ∧ ∀ rest : String, "Savings Coach error: boom" ≠ "Coach error: " ++ rest := by
  constructor
  · rfl
  · intro rest h
    have hd : "Savings Coach error: boom".data = "Coach error: ".data ++ rest.data :=
      congrArg String.data h
    have h13 := congrArg (List.take 13) hd
    rw [show ("Coach error: ".data ++ rest.data).take 13 = "Coach error: ".data from by
      have hl : "Coach error: ".data.length = 13 := by decide
      rw [← hl, List.take_left]] at h13
    exact absurd h13 (by decide)

/-- C6 witness: the amended pipeline facts evaluated on a concrete run
whose coach stage fails with message "boom". -/
theorem c6_witness :
    coach_fail { first_three ok_stage ok_stage ok_stage c6s0 with
        current_agent := "Savings Coach" } = Except.error "boom"
    ∧ (fallback_execution ok_stage ok_stage ok_stage coach_fail ok_stage c6s0
        = compiler_node (run_stage "Transaction Monitor" ok_stage
            { first_three ok_stage ok_stage ok_stage c6s0 with
                current_agent := "Savings Coach"
                errors := (first_three ok_stage ok_stage ok_stage c6s0).errors
                  ++ ["Savings Coach error: " ++ "boom"] }))
    ∧ (fallback_execution ok_stage ok_stage ok_stage coach_fail ok_stage c6s0).comprehensive_report
        = some (Report.mk
            (calculate_health_score
              (first_three ok_stage ok_stage ok_stage c6s0).financial_analysis
              (first_three ok_stage ok_stage ok_stage c6s0).risk_assessment)
            (fallback_execution ok_stage ok_stage ok_stage coach_fail ok_stage c6s0).errors)
    ∧ (∃ post : List String,
        (post = [] ∨ ∃ e2, post = ["Transaction Monitor error: " ++ e2])
        ∧ (fallback_execution ok_stage ok_stage ok_stage coach_fail ok_stage c6s0).errors
            = (first_three ok_stage ok_stage ok_stage c6s0).errors
              ++ ["Savings Coach error: " ++ "boom"] ++ post) := by
  have hcoach : coach_fail { first_three ok_stage ok_stage ok_stage c6s0 with
      current_agent := "Savings Coach" } = Except.error "boom" := rfl
  have hmon : ∀ st st', ok_stage st = Except.ok st' →
      st'.financial_analysis = st.financial_analysis
      ∧ st'.risk_assessment = st.risk_assessment
      ∧ st'.errors = st.errors := by
    intro st st' h
    obtain rfl := Except.ok.inj h
    exact ⟨rfl, rfl, rfl⟩
  have h := c6_coach_failure_amended ok_stage ok_stage ok_stage coach_fail ok_stage c6s0
    "boom" hcoach hmon
  exact ⟨hcoach, h.1, h.2.1, h.2.2⟩

/-- C7 counterexample: two identical credit transactions — an empty
outflow set — still produce one info duplicate alert, so detection does
not operate on the outflow transaction set. -/
theorem c7_counterexample :
    ([c7credit, c7credit].filter (fun t => t.type == "debit")) = []
    ∧ (check_duplicates [c7credit, c7credit]).length = 1
    ∧ ∀ a ∈ check_duplicates [c7credit, c7credit],
        a.severity = "info" ∧ a.count = some 2 := by
  have hg : txn_groups [c7credit, c7credit] = [(dup_key c7credit, [c7credit, c7credit])] := by
    simp [txn_groups, add_to_groups]
  have hc : check_duplicates [c7credit, c7credit]
      = [{ type := "duplicate", severity := "info",
           message := dup_message 2 (([c7credit, c7credit].head?.map Txn.amount).getD 0),
           transactions := [c7credit, c7credit], count := some 2 }] := by
    rw [check_duplicates, hg]
    simp
  refine ⟨rfl, ?_, ?_⟩
  · rw [hc]; rfl
  · rw [hc]
    intro a ha
    simp only [List.mem_singleton] at ha
    subst ha
    exact ⟨rfl, rfl⟩

lemma c7_filter_eval :
    c7txns.filter (fun t => decide (dup_key t = dup_key c7dupA)) = [c7dupA, c7dupA] := by
  have hne : ¬ (dup_key c7dupB = dup_key c7dupA) := by
    simp [dup_key, c7dupA, c7dupB]
  simp [c7txns, List.filter, hne]

/-- C7 witness: a concrete list with a genuine duplicate pair, where the
group yields exactly one info alert with the right count. -/
theorem c7_witness :
    1 < (c7txns.filter (fun t => decide (dup_key t = dup_key c7dupA))).length
    ∧ (∃ a ∈ check_duplicates c7txns,
        a.transactions = c7txns.filter (fun t => decide (dup_key t = dup_key c7dupA))
        ∧ a.count = some (c7txns.filter (fun t => decide (dup_key t = dup_key c7dupA))).length)
    ∧ ((check_duplicates c7txns).map Alert.transactions).Nodup := by
  have hlen : 1 < (c7txns.filter (fun t => decide (dup_key t = dup_key c7dupA))).length := by
    rw [c7_filter_eval]; norm_num
  exact ⟨hlen, (c7_duplicates_amended c7txns).2.1 _ hlen, (c7_duplicates_amended c7txns).2.2⟩

end FinSage
